import Mathlib

/-!
Verification development for the gtsfm multi-view optimization pipeline.

The repository materials at hand are the pipeline configuration
(`gtsfm/configs`, giving every stage's default parameters), the conda
environment, and an exploration notebook driving the pipeline.  The
algorithmic modules themselves (`gtsfm/averaging/rotation/shonan.py`,
`gtsfm/two_view_estimator.py`, `gtsfm/data_association/*`,
`gtsfm/view_graph_estimator/*`, `gtsfm/bundle/*`, `gtsfm/frontend/cacher/*`,
`gtsfm/multi_view_optimizer.py`, `gtsfm/frontend/verifier/ransac.py`)
are referenced by the configuration but their sources are not present, so
the definitions below model them from the specification, parameterized over
the numeric defaults that the configuration file does record
(min_num_inliers_est_model = 15, min_inlier_ratio_est_model = 0.1,
min_track_len = 2, reproj_error_threshold = 100, max_num_hypotheses = 100,
output_reproj_error_thresh = 3, MEDIAN_EDGE_ERROR aggregation,
RANSAC_SAMPLE_UNIFORM sampling).

Rotations are embedded exactly: 3x3 rational matrices M with
transpose M * M = 1 and det M = 1.  The angular deviation between two
rotations A, B is monotonically determined by trace (transpose A * B)
(the rotation angle t of R satisfies trace R = 1 + 2 cos t), so angular
statements are phrased through this trace, staying in exact arithmetic.
-/

namespace Gtsfm

abbrev Mat3 := Matrix (Fin 3) (Fin 3) ℚ

/-- A 3D rotation, embedded exactly: an orthogonal rational matrix with
determinant one. -/
def Rot3 := { M : Mat3 // M.transpose * M = 1 ∧ M.det = 1 }

def Rot3.one : Rot3 :=
  ⟨1, ⟨by rw [Matrix.transpose_one, one_mul], Matrix.det_one⟩⟩

def Rot3.mul (A B : Rot3) : Rot3 :=
  ⟨A.val * B.val, by
    constructor
    · rw [Matrix.transpose_mul]
      calc B.val.transpose * A.val.transpose * (A.val * B.val)
          = B.val.transpose * (A.val.transpose * A.val) * B.val := by
            simp [Matrix.mul_assoc]
        _ = 1 := by rw [A.prop.1, Matrix.mul_one, B.prop.1]
    · rw [Matrix.det_mul, A.prop.2, B.prop.2, one_mul]⟩

def Rot3.inv (A : Rot3) : Rot3 :=
  ⟨A.val.transpose, by
    constructor
    · rw [Matrix.transpose_transpose]
      exact Matrix.mul_eq_one_comm.mp A.prop.1
    · rw [Matrix.det_transpose]
      exact A.prop.2⟩

instance : One Rot3 := ⟨Rot3.one⟩
instance : Mul Rot3 := ⟨Rot3.mul⟩
instance : Inv Rot3 := ⟨Rot3.inv⟩

instance : Group Rot3 where
  mul_assoc A B C := Subtype.ext (Matrix.mul_assoc _ _ _)
  one_mul A := Subtype.ext (Matrix.one_mul _)
  mul_one A := Subtype.ext (Matrix.mul_one _)
  inv_mul_cancel A := Subtype.ext A.prop.1

instance : DecidableEq Rot3 := fun A B =>
  decidable_of_iff (A.val = B.val) ⟨Subtype.ext, congrArg Subtype.val⟩

/-- trace (transpose A * B) determines the angle between rotations A and B
(it equals 1 + 2 cos of the relative angle), so the angular deviation
between A and B is monotone in `3 - trace`. -/
def Rot3.devTrace (A B : Rot3) : ℚ := 3 - Matrix.trace (A.val.transpose * B.val)

/-- A concrete nontrivial rotation (90 degrees about the z axis), used to
instantiate gauge transformations on concrete inputs. -/
def Rz90 : Rot3 :=
  ⟨!![0, -1, 0; 1, 0, 0; 0, 0, 1], by
    constructor
    · ext i j
      fin_cases i <;> fin_cases j <;>
        simp [Matrix.mul_apply, Matrix.transpose_apply, Fin.sum_univ_three,
          Matrix.one_apply, Matrix.vecHead, Matrix.vecTail]
    · rw [Matrix.det_fin_three]
      simp⟩

/-- A relative-rotation measurement for the ordered camera pair (i1, i2):
the entry `(i1, i2, R)` records the measured rotation i2Ri1 of camera i1's
frame with respect to camera i2's. -/
abbrev RelRotEdge := Nat × Nat × Rot3

/-- An observation: (camera index, keypoint index). -/
abbrev Obs := Nat × Nat

/-! ## Rotation averaging (gtsfm.averaging.rotation.shonan.ShonanRotationAveraging) -/

namespace ShonanRotationAveraging

/-- Modelled from the spec: the per-edge residual of the rotation
synchronization objective of `shonan.py` (not in src/) — the angular
discrepancy between the measured relative rotation i2Ri1 and the relative
rotation (w i2)⁻¹ * (w i1) predicted by a candidate assignment `w` of one
global rotation per camera, measured through the trace deviation. -/
def edgeResidual (w : Nat → Rot3) (e : RelRotEdge) : ℚ :=
  Rot3.devTrace e.2.2 ((w e.2.1)⁻¹ * w e.1)

/-- Modelled from the spec: the rotation-synchronization objective —
the sum over all retained edges of the angular discrepancy between the
measured and the predicted relative rotation. -/
def cost (edges : List RelRotEdge) (w : Nat → Rot3) : ℚ :=
  (edges.map (edgeResidual w)).sum

/-- An assignment of global rotations solving rotation averaging: it
minimizes the synchronization objective over all assignments. -/
def IsOptimal (edges : List RelRotEdge) (w : Nat → Rot3) : Prop :=
  ∀ v : Nat → Rot3, cost edges w ≤ cost edges v

/-- Conjugating every input relative rotation by one fixed global rotation. -/
def conjEdges (S : Rot3) (edges : List RelRotEdge) : List RelRotEdge :=
  edges.map fun e => (e.1, e.2.1, S * e.2.2 * S⁻¹)

/-- Transporting a global-rotation assignment by the fixed rotation S. -/
def conjAssign (S : Rot3) (w : Nat → Rot3) : Nat → Rot3 :=
  fun i => S * w i * S⁻¹

/-- Modelled from the spec: whether any input edge touches camera i
(`shonan.py` returns a no-result entry for cameras no edge connects). -/
def touched (edges : List RelRotEdge) (i : Nat) : Bool :=
  edges.any fun e => e.1 == i || e.2.1 == i

/-- Modelled from the spec: `ShonanRotationAveraging.run` (not in src/),
called with the total camera count and the relative-rotation measurements:
it returns one entry per camera index 0..numImages-1 — a rotation produced
by the synchronization solver for cameras touched by some edge, and a
no-result entry for isolated cameras.  The solver itself is a parameter:
the spec fixes its objective, not its iteration. -/
def run (solve : List RelRotEdge → Nat → Rot3) (numImages : Nat)
    (edges : List RelRotEdge) : List (Option Rot3) :=
  (List.range numImages).map fun i =>
    if touched edges i then some (solve edges i) else none

end ShonanRotationAveraging

/-! ## Data association (gtsfm.data_association.data_assoc.DataAssociation) -/

/-- Modelled from the spec: one merge step of the transitive union of
correspondences of `data_assoc.py` (not in src/) — all current partial
tracks touching either endpoint of the correspondence are merged with its
two observations into one track. -/
def mergeInto (comps : List (List Obs)) (c : Obs × Obs) : List (List Obs) :=
  let rest := comps.filter fun t => !(t.contains c.1 || t.contains c.2)
  let touching := comps.filter fun t => t.contains c.1 || t.contains c.2
  (c.1 :: c.2 :: touching.flatten).dedup :: rest

/-- Modelled from the spec: union correspondences transitively into tracks
— two observations belong to the same track if connected by a chain of
matched correspondences. -/
def unionTracks (corrs : List (Obs × Obs)) : List (List Obs) :=
  corrs.foldl mergeInto []

/-- The Data Association stage; `min_track_len` defaults to 2 as in the
configuration file. -/
structure DataAssociation where
  min_track_len : Nat := 2

/-- Modelled from the spec: `DataAssociation.run` (not in src/) — union
correspondences transitively into tracks, discard tracks in which two
observations reference the same camera, and discard tracks shorter than
the configured minimum length. -/
def DataAssociation.run (self : DataAssociation) (corrs : List (Obs × Obs)) :
    List (List Obs) :=
  ((unionTracks corrs).filter fun t => decide (List.Nodup (t.map Prod.fst))).filter
    fun t => decide (self.min_track_len ≤ t.length)

/-! ## View-graph estimation
(gtsfm.view_graph_estimator.cycle_consistent_rotation_estimator) -/

/-- The configurable robust statistic aggregating one edge's triplet cycle
errors; the configuration file selects MEDIAN_EDGE_ERROR. -/
inductive EdgeErrorAggregationCriterion
  | MEDIAN_EDGE_ERROR
  | MIN_EDGE_ERROR
deriving DecidableEq

/-- The median of a list of rationals (middle element of the sorted list;
0 for an empty list, which the estimator never aggregates). -/
def median (l : List ℚ) : ℚ :=
  (l.mergeSort fun a b => decide (a ≤ b)).getD (l.length / 2) 0

def aggregateErrors : EdgeErrorAggregationCriterion → List ℚ → ℚ
  | .MEDIAN_EDGE_ERROR, l => median l
  | .MIN_EDGE_ERROR, l => l.min?.getD 0

/-- The measured rotation jRi for the camera pair (i, j), looked up in the
edge list in either storage direction. -/
def lookupRot (edges : List RelRotEdge) (i j : Nat) : Option Rot3 :=
  match edges.find? fun e => e.1 == i && e.2.1 == j with
  | some e => some e.2.2
  | none =>
    match edges.find? fun e => e.1 == j && e.2.1 == i with
    | some e => some e.2.2⁻¹
    | none => none

/-- Modelled from the spec: the cycle error of the camera triplet (a, b, c)
— compose the three measured relative rotations around the cycle
a → b → c → a; a perfectly consistent triplet composes to the identity, so
the angular deviation from the identity (trace deviation here) is the
triplet's error.  `none` when some side of the triangle has no edge. -/
def cycleError (edges : List RelRotEdge) (a b c : Nat) : Option ℚ :=
  match lookupRot edges a b, lookupRot edges b c, lookupRot edges c a with
  | some Rab, some Rbc, some Rca => some (Rot3.devTrace 1 (Rca * Rbc * Rab))
  | _, _, _ => none

/-- The camera indices appearing in the edge list. -/
def graphNodes (edges : List RelRotEdge) : List Nat :=
  (edges.map (fun e => e.1) ++ edges.map (fun e => e.2.1)).dedup

/-- Modelled from the spec: the cycle errors of every triplet the edge
(e.1, e.2.1) participates in — one for every third camera completing a
triangle with both endpoints. -/
def edgeTripletErrors (edges : List RelRotEdge) (e : RelRotEdge) : List ℚ :=
  ((graphNodes edges).filter fun k => k != e.1 && k != e.2.1).filterMap
    fun k => cycleError edges e.1 e.2.1 k

/-- The cycle-consistency view-graph estimator; the aggregation criterion
defaults to the median as in the configuration file. The error threshold is
a configuration value with no default recorded in the source material. -/
structure CycleConsistentRotationViewGraphEstimator where
  edge_error_aggregation_criterion : EdgeErrorAggregationCriterion :=
    .MEDIAN_EDGE_ERROR
  error_threshold : ℚ

/-- Modelled from the spec: `CycleConsistentRotationViewGraphEstimator.run`
(not in src/) — keep an edge when it participates in zero triplets (cycle
consistency cannot judge it), or when the robust aggregate of its triplet
cycle errors is within the threshold; drop it otherwise.  A total
function: removal never aborts the pipeline. -/
def CycleConsistentRotationViewGraphEstimator.run
    (self : CycleConsistentRotationViewGraphEstimator)
    (edges : List RelRotEdge) : List RelRotEdge :=
  edges.filter fun e =>
    let errs := edgeTripletErrors edges e
    errs.isEmpty ||
      decide (aggregateErrors self.edge_error_aggregation_criterion errs ≤
        self.error_threshold)

/-! ## Two-view estimation post-filter (gtsfm.two_view_estimator.InlierSupportProcessor) -/

/-- The post-filter of the Two-View Estimator; defaults are those of the
configuration file (min_num_inliers_est_model = 15,
min_inlier_ratio_est_model = 0.1). -/
structure InlierSupportProcessor where
  min_num_inliers_est_model : Nat := 15
  min_inlier_ratio_est_model : ℚ := 1/10

/-- Modelled from the spec: the pair-rejection test of
`two_view_estimator.py` (not in src/) — an estimated two-view model is
kept only when its verified inlier count and inlier ratio both reach the
configured minimums. -/
def InlierSupportProcessor.accepts (self : InlierSupportProcessor)
    (num_inliers : Nat) (inlier_ratio : ℚ) : Bool :=
  decide (self.min_num_inliers_est_model ≤ num_inliers) &&
    decide (self.min_inlier_ratio_est_model ≤ inlier_ratio)

/-- Modelled from the spec: the post-filter applied to a candidate
Relative Pose Edge: the edge passes through unchanged when accepted and is
replaced by the verification-failure signal `none` (the pair is dropped,
never a fatal error — the function is total) when rejected. -/
def InlierSupportProcessor.processEdge {E : Type}
    (self : InlierSupportProcessor) (edge : E)
    (num_inliers : Nat) (inlier_ratio : ℚ) : Option E :=
  if self.accepts num_inliers inlier_ratio then some edge else none

/-! ## Triangulation (gtsfm.data_association.point3d_initializer) -/

inductive TriangulationSamplingMode
  | RANSAC_SAMPLE_UNIFORM
  | RANSAC_SAMPLE_BIASED_BASELINE
  | RANSAC_TOPK_BASELINES
  | NO_RANSAC
deriving DecidableEq

/-- Triangulation options; defaults are those of the configuration file
(reproj_error_threshold = 100, max_num_hypotheses = 100, uniform RANSAC
sampling). -/
structure TriangulationOptions where
  reproj_error_threshold : ℚ := 100
  mode : TriangulationSamplingMode := .RANSAC_SAMPLE_UNIFORM
  max_num_hypotheses : Nat := 100

/-- The total reprojection error of a candidate 3D point over all of a
track's observations, for an abstract per-observation error function. -/
def totalReprojError {P : Type} (reprojErr : P → Obs → ℚ)
    (track : List Obs) (p : P) : ℚ :=
  (track.map (reprojErr p)).sum

/-- Modelled from the spec: the hypothesis pool of one robust triangulation
run — from the drawn camera subsets, only those of size at least 2 are
usable, and at most max_num_hypotheses of them are evaluated. -/
def hypothesisPool (opts : TriangulationOptions)
    (samples : List (List Obs)) : List (List Obs) :=
  (samples.filter fun s => decide (2 ≤ s.length)).take opts.max_num_hypotheses

/-- Modelled from the spec: robust triangulation of one track
(`point3d_initializer.py` not in src/), parameterized by the abstract
minimal triangulator `triangulate` (returning `none` on degenerate
geometry: near-parallel rays or cheirality failure) and the per-observation
reprojection error.  Each drawn subset of size at least 2 (up to the
configured maximum number of hypotheses) is triangulated, every hypothesis
is scored by its reprojection error over all observations, the best is
kept, and the track is marked invalid (`none`) exactly when no hypothesis
triangulates or the best one's error exceeds the threshold. -/
def triangulateTrack {P : Type} (opts : TriangulationOptions)
    (triangulate : List Obs → Option P) (reprojErr : P → Obs → ℚ)
    (track : List Obs) (samples : List (List Obs)) : Option P :=
  match ((hypothesisPool opts samples).filterMap triangulate).argmin
      (totalReprojError reprojErr track) with
  | none => none
  | some best =>
    if decide (totalReprojError reprojErr track best ≤
        opts.reproj_error_threshold) then some best else none

/-! ## Bundle adjustment (gtsfm.bundle.bundle_adjustment.BundleAdjustmentOptimizer) -/

/-- The bundle adjustment stage; defaults are those of the configuration
file (output_reproj_error_thresh = 3, robust noise on, per-camera
calibration). -/
structure BundleAdjustmentOptimizer where
  output_reproj_error_thresh : ℚ := 3
  robust_measurement_noise : Bool := true
  shared_calib : Bool := false

/-- Modelled from the spec: the post-optimization last-chance outlier
filter of `bundle_adjustment.py` (not in src/) — every track (paired here
with its final reprojection error after convergence) whose error exceeds
the output threshold is dropped from the final track set. -/
def BundleAdjustmentOptimizer.filterTracks {T : Type}
    (self : BundleAdjustmentOptimizer) (tracks : List (T × ℚ)) :
    List (T × ℚ) :=
  tracks.filter fun tr => decide (tr.2 ≤ self.output_reproj_error_thresh)

/-! ## Front-end caching (gtsfm.frontend.cacher) -/

/-- A cache: a finite association of input keys to stored results.  The
key is the stable identity of the input (image content plus detector or
matcher configuration), modelled as the input itself. -/
abbrev Cache (κ ρ : Type) := List (κ × ρ)

def cacheLookup {κ ρ : Type} [DecidableEq κ] (cache : Cache κ ρ) (k : κ) :
    Option ρ :=
  (cache.find? fun e => decide (e.1 = k)).map Prod.snd

/-- A cache is consistent with the computation it memoizes: every stored
result equals direct recomputation on its key. -/
def CacheConsistent {κ ρ : Type} [DecidableEq κ] (f : κ → ρ)
    (cache : Cache κ ρ) : Prop :=
  ∀ k v, cacheLookup cache k = some v → v = f k

/-- Modelled from the spec: the generic cacher logic of
`gtsfm/frontend/cacher` (not in src/) — look the key up; on a hit return
the stored result, on a miss recompute, store (an idempotent write) and
return.  Returns the result together with the updated cache. -/
def cachedCompute {κ ρ : Type} [DecidableEq κ] (f : κ → ρ)
    (cache : Cache κ ρ) (k : κ) : ρ × Cache κ ρ :=
  match cacheLookup cache k with
  | some v => (v, cache)
  | none => (f k, (k, f k) :: cache)

/-- Modelled from the spec: `DetectorDescriptorCacher.detect_and_describe`
(not in src/) — the cache-wrapped per-image feature extraction, keyed by
image content and detector configuration. -/
def DetectorDescriptorCacher.detect_and_describe {Image Features : Type}
    [DecidableEq Image] (detect : Image → Features)
    (cache : Cache Image Features) (image : Image) :
    Features × Cache Image Features :=
  cachedCompute detect cache image

/-- Modelled from the spec: `MatcherCacher.match` (not in src/; `match` is
a reserved word here) — the cache-wrapped per-pair matching, keyed by the
pair's image contents and matcher configuration. -/
def MatcherCacher.matchPair {PairInput MatchResult : Type}
    [DecidableEq PairInput] (matcher : PairInput → MatchResult)
    (cache : Cache PairInput MatchResult) (pair : PairInput) :
    MatchResult × Cache PairInput MatchResult :=
  cachedCompute matcher cache pair

/-! ## Robust verification (gtsfm.frontend.verifier.ransac.Ransac) -/

/-- A translation direction: an exact unit vector. -/
def Unit3 := { v : Fin 3 → ℚ // v 0 ^ 2 + v 1 ^ 2 + v 2 ^ 2 = 1 }

/-- A concrete unit direction (the x axis). -/
def unitX : Unit3 := ⟨![1, 0, 0], by norm_num⟩

/-- Modelled from the spec: `Ransac.verify` (not in src/), parameterized by
the abstract robust model estimation (minimal-solver hypotheses scored at
the configured pixel threshold, then decomposition into a relative rotation
and a unit translation direction) and the resulting model's inlier test.
From two keypoint sets, their putative match indices and the two
calibrations it returns the 4-tuple the notebook unpacks: the relative
rotation i2Ri1, the unit translation direction i2Ui1, the verified inlier
correspondence indices, and the estimated model's scalar inlier ratio. -/
def Ransac.verify {Calib : Type}
    (estimateModel : List (ℚ × ℚ) → List (ℚ × ℚ) → List (Nat × Nat) →
      Calib → Calib → Rot3 × Unit3)
    (isInlier : Rot3 × Unit3 → Nat × Nat → Bool)
    (keypoints_i1 keypoints_i2 : List (ℚ × ℚ))
    (match_indices : List (Nat × Nat)) (K1 K2 : Calib) :
    Rot3 × Unit3 × List (Nat × Nat) × ℚ :=
  ((estimateModel keypoints_i1 keypoints_i2 match_indices K1 K2).1,
   (estimateModel keypoints_i1 keypoints_i2 match_indices K1 K2).2,
   match_indices.filter
     (isInlier (estimateModel keypoints_i1 keypoints_i2 match_indices K1 K2)),
   if match_indices.length = 0 then 0 else
     ((match_indices.filter (isInlier (estimateModel keypoints_i1 keypoints_i2
         match_indices K1 K2))).length : ℚ) / (match_indices.length : ℚ))

/-! ## Pipeline scheduling (gtsfm.multi_view_optimizer.MultiViewOptimizer) -/

/-- The stages of the multi-view optimization pipeline. -/
inductive Stage
  | correspondence
  | twoViewEstimation
  | viewGraphEstimation
  | rotationAveraging
  | translationAveraging
  | dataAssociation
  | bundleAdjustment
deriving DecidableEq

/-- Modelled from the spec: the data dependencies wired by
`multi_view_optimizer.py` (not in src/) — each stage consumes the complete
output of exactly these predecessor stages. -/
def stageDeps : Stage → List Stage
  | .correspondence => []
  | .twoViewEstimation => [.correspondence]
  | .viewGraphEstimation => [.twoViewEstimation]
  | .rotationAveraging => [.viewGraphEstimation]
  | .translationAveraging => [.rotationAveraging, .viewGraphEstimation]
  | .dataAssociation =>
      [.rotationAveraging, .translationAveraging, .twoViewEstimation]
  | .bundleAdjustment => [.dataAssociation]

/-- Modelled from the spec: admissible executions of the task scheduler —
stages start one at a time, and a stage may start only when every stage it
depends on has already completed (synchronization barrier: no partial
results are ever consumed).  `Exec trace` holds when `trace` lists the
stages in a possible completion order. -/
inductive Exec : List Stage → Prop
  | nil : Exec []
  | step {done : List Stage} {s : Stage} : Exec done → s ∉ done →
      (∀ d ∈ stageDeps s, d ∈ done) → Exec (done ++ [s])

end Gtsfm

/-! # Theorems -/

namespace Gtsfm

theorem Rot3.val_mul (A B : Rot3) : (A * B).val = A.val * B.val := rfl

theorem Rot3.val_inv (A : Rot3) : (A⁻¹).val = A.val.transpose := rfl

/-- Every column of an orthogonal matrix is a unit vector, so every
diagonal entry is at most 1 and the trace is at most 3. -/
theorem trace_le_three (M : Mat3) (h : M.transpose * M = 1) :
    Matrix.trace M ≤ 3 := by
  have hdiag : ∀ i : Fin 3, M i i ≤ 1 := by
    intro i
    have hcol : ∑ k : Fin 3, M k i * M k i = 1 := by
      have := congrFun (congrFun h i) i
      simpa [Matrix.mul_apply, Matrix.transpose_apply, Matrix.one_apply]
        using this
    have hsq : M i i * M i i ≤ 1 := by
      rw [← hcol]
      exact Finset.single_le_sum (fun k _ => mul_self_nonneg (M k i))
        (Finset.mem_univ i)
    have := abs_le_one_iff_mul_self_le_one.mpr hsq
    exact le_trans (le_abs_self _) this
  have htr : Matrix.trace M = M 0 0 + M 1 1 + M 2 2 := by
    simp [Matrix.trace, Matrix.diag, Fin.sum_univ_three]
  rw [htr]
  have h0 := hdiag 0
  have h1 := hdiag 1
  have h2 := hdiag 2
  linarith

theorem Rot3.devTrace_nonneg (A B : Rot3) : 0 ≤ devTrace A B := by
  have hx := trace_le_three (A.val.transpose * B.val) (A⁻¹ * B).prop.1
  unfold devTrace
  linarith

theorem Rot3.devTrace_self (A : Rot3) : devTrace A A = 0 := by
  unfold devTrace
  rw [A.prop.1]
  simp [Matrix.trace_one]

/-- Conjugating both rotations by the same rotation S preserves the
relative-angle trace: the trace is invariant under conjugation. -/
theorem Rot3.devTrace_conj (S A B : Rot3) :
    devTrace (S * A * S⁻¹) (S * B * S⁻¹) = devTrace A B := by
  have hS : S.val.transpose * S.val = 1 := S.prop.1
  unfold devTrace
  congr 1
  show Matrix.trace ((S.val * A.val * S.val.transpose).transpose *
      (S.val * B.val * S.val.transpose)) =
    Matrix.trace (A.val.transpose * B.val)
  rw [Matrix.transpose_mul, Matrix.transpose_mul, Matrix.transpose_transpose]
  simp only [Matrix.mul_assoc]
  rw [show S.val.transpose * (S.val * (B.val * S.val.transpose)) =
      B.val * S.val.transpose from by rw [← Matrix.mul_assoc, hS, Matrix.one_mul]]
  rw [Matrix.trace_mul_comm]
  simp only [Matrix.mul_assoc]
  rw [show S.val.transpose * S.val = 1 from hS, Matrix.mul_one]

namespace ShonanRotationAveraging

theorem conjAssign_conjAssign_inv (S : Rot3) (v : Nat → Rot3) :
    conjAssign S (conjAssign S⁻¹ v) = v := by
  funext i
  unfold conjAssign
  group

theorem edgeResidual_conj (S : Rot3) (w : Nat → Rot3) (e : RelRotEdge) :
    edgeResidual (conjAssign S w) (e.1, e.2.1, S * e.2.2 * S⁻¹) =
      edgeResidual w e := by
  unfold edgeResidual conjAssign
  have h : (S * w e.2.1 * S⁻¹)⁻¹ * (S * w e.1 * S⁻¹) =
      S * ((w e.2.1)⁻¹ * w e.1) * S⁻¹ := by group
  rw [h]
  exact Rot3.devTrace_conj S e.2.2 ((w e.2.1)⁻¹ * w e.1)

theorem cost_conj (S : Rot3) (edges : List RelRotEdge) (w : Nat → Rot3) :
    cost (conjEdges S edges) (conjAssign S w) = cost edges w := by
  unfold cost conjEdges
  rw [List.map_map]
  congr 1
  apply List.map_congr_left
  intro e _
  exact edgeResidual_conj S w e

theorem cost_nonneg (edges : List RelRotEdge) (w : Nat → Rot3) :
    0 ≤ cost edges w := by
  unfold cost
  apply List.sum_nonneg
  intro q hq
  rcases List.mem_map.mp hq with ⟨e, _, rfl⟩
  exact Rot3.devTrace_nonneg _ _

end ShonanRotationAveraging

/-- C1: Rotation averaging is gauge invariant: for every edge set, if every
input relative rotation is conjugated by one fixed global rotation S, then
any optimal per-camera assignment of the synchronization objective, itself
conjugated by S, is optimal for the conjugated measurements — the output
changes only by that same fixed global rotation — and the pairwise angular
differences between output rotations (measured exactly through the
angle-determining trace) are unchanged. -/
theorem rotation_averaging_gauge_invariant
    (edges : List RelRotEdge) (S : Rot3)
    (w : Nat → Rot3) (hopt : ShonanRotationAveraging.IsOptimal edges w) :
    ShonanRotationAveraging.IsOptimal
      (ShonanRotationAveraging.conjEdges S edges)
      (ShonanRotationAveraging.conjAssign S w) ∧
    (∀ i j : Nat,
      Rot3.devTrace (ShonanRotationAveraging.conjAssign S w i)
          (ShonanRotationAveraging.conjAssign S w j) =
        Rot3.devTrace (w i) (w j)) := by
  constructor
  · intro v
    rw [ShonanRotationAveraging.cost_conj]
    have h2 : ShonanRotationAveraging.cost
        (ShonanRotationAveraging.conjEdges S edges) v =
        ShonanRotationAveraging.cost edges
          (ShonanRotationAveraging.conjAssign S⁻¹ v) := by
      conv_lhs =>
        rw [← ShonanRotationAveraging.conjAssign_conjAssign_inv S v]
      rw [ShonanRotationAveraging.cost_conj]
    rw [h2]
    exact hopt (ShonanRotationAveraging.conjAssign S⁻¹ v)
  · intro i j
    exact Rot3.devTrace_conj S (w i) (w j)

/-- Witness for C1 at a concrete input: the single consistent edge
(0, 1, identity), the constant-identity assignment (optimal since its cost
is zero and cost is nonnegative), conjugated by the 90-degree rotation. -/
theorem rotation_averaging_gauge_invariant_witness :
    ShonanRotationAveraging.IsOptimal
      (ShonanRotationAveraging.conjEdges Rz90 [(0, 1, (1 : Rot3))])
      (ShonanRotationAveraging.conjAssign Rz90 (fun _ => 1)) ∧
    (∀ i j : Nat,
      Rot3.devTrace (ShonanRotationAveraging.conjAssign Rz90 (fun _ => 1) i)
          (ShonanRotationAveraging.conjAssign Rz90 (fun _ => 1) j) =
        Rot3.devTrace ((fun _ : Nat => (1 : Rot3)) i)
          ((fun _ : Nat => (1 : Rot3)) j)) :=
  rotation_averaging_gauge_invariant [(0, 1, (1 : Rot3))] Rz90 (fun _ => 1)
    (by
      intro v
      have h : ShonanRotationAveraging.cost [(0, 1, (1 : Rot3))]
          (fun _ => 1) = 0 := by
        simp [ShonanRotationAveraging.cost, ShonanRotationAveraging.edgeResidual,
          Rot3.devTrace_self]
      rw [h]
      exact ShonanRotationAveraging.cost_nonneg _ v)

/-- C2: Every track in the Data Association output satisfies both
invariants for every input correspondence set: no two of its observations
reference the same camera index (the camera projections of the track are
pairwise distinct), and its number of observations is at least the
configured minimum track length (whose default, recorded in the
configuration file, is 2). -/
theorem data_association_track_invariants (self : DataAssociation)
    (corrs : List (Obs × Obs)) (t : List Obs) (ht : t ∈ self.run corrs) :
    (t.map Prod.fst).Nodup ∧ self.min_track_len ≤ t.length ∧
      ({} : DataAssociation).min_track_len = 2 := by
  unfold DataAssociation.run at ht
  have h1 := List.mem_filter.mp ht
  have h2 := List.mem_filter.mp h1.1
  exact ⟨of_decide_eq_true h2.2, of_decide_eq_true h1.2, rfl⟩

/-- Witness for C2 at a concrete input: one correspondence linking keypoint
5 of camera 0 with keypoint 7 of camera 1 yields the two-observation track
[(0,5), (1,7)] in the default-configured output. -/
theorem data_association_track_invariants_witness :
    (([((0 : Nat), (5 : Nat)), (1, 7)] : List Obs).map Prod.fst).Nodup ∧
      ({} : DataAssociation).min_track_len ≤
        ([((0 : Nat), (5 : Nat)), (1, 7)] : List Obs).length ∧
      ({} : DataAssociation).min_track_len = 2 :=
  data_association_track_invariants {}
    [(((0 : Nat), (5 : Nat)), ((1 : Nat), (7 : Nat)))]
    [(0, 5), (1, 7)] (by decide)

/-- C4: For every image pair, the Two-View Estimator's post-filter
(InlierSupportProcessor) rejects the pair — producing the non-fatal
no-edge signal `none` — if and only if the verified inlier count is below
the configured minimum or the inlier ratio is below the configured
minimum; the defaults recorded in the configuration file are 15 inliers
and ratio 1/10. -/
theorem inlier_support_processor_rejects_iff {E : Type}
    (self : InlierSupportProcessor) (edge : E) (num_inliers : Nat)
    (inlier_ratio : ℚ) :
    (self.processEdge edge num_inliers inlier_ratio = none ↔
      num_inliers < self.min_num_inliers_est_model ∨
        inlier_ratio < self.min_inlier_ratio_est_model) ∧
    ({} : InlierSupportProcessor).min_num_inliers_est_model = 15 ∧
    ({} : InlierSupportProcessor).min_inlier_ratio_est_model = 1/10 := by
  refine ⟨?_, rfl, rfl⟩
  unfold InlierSupportProcessor.processEdge
  constructor
  · intro h
    split at h
    · exact absurd h (by simp)
    next hacc =>
      unfold InlierSupportProcessor.accepts at hacc
      simp only [Bool.and_eq_true, decide_eq_true_eq, not_and_or, not_le] at hacc
      exact hacc
  · intro h
    have hacc : self.accepts num_inliers inlier_ratio = false := by
      unfold InlierSupportProcessor.accepts
      rcases h with h | h
      · simp [Nat.not_le.mpr h]
      · simp [not_le.mpr h]
    simp [hacc]

/-- C7: Every track whose final post-convergence reprojection error exceeds
the configured output threshold is dropped from the final track set (and
only those are dropped), and the default output threshold (3, from the
configuration file) is strictly tighter than the default
triangulation-stage rejection threshold (100). -/
theorem bundle_adjustment_output_filter {T : Type}
    (ba : BundleAdjustmentOptimizer) (tracks : List (T × ℚ)) :
    (∀ tr ∈ ba.filterTracks tracks,
      tr ∈ tracks ∧ tr.2 ≤ ba.output_reproj_error_thresh) ∧
    (∀ tr ∈ tracks, ba.output_reproj_error_thresh < tr.2 →
      tr ∉ ba.filterTracks tracks) ∧
    ({} : BundleAdjustmentOptimizer).output_reproj_error_thresh <
      ({} : TriangulationOptions).reproj_error_threshold := by
  refine ⟨?_, ?_, by norm_num⟩
  · intro tr htr
    have h := List.mem_filter.mp htr
    exact ⟨h.1, of_decide_eq_true h.2⟩
  · intro tr _ hgt hmem
    have h := List.mem_filter.mp hmem
    exact absurd (of_decide_eq_true h.2) (not_le.mpr hgt)

/-- Witness for C7 at a concrete input: a track with final reprojection
error 5 is dropped by the default-configured output filter (threshold 3). -/
theorem bundle_adjustment_output_filter_witness :
    ((42, (5 : ℚ)) : Nat × ℚ) ∉
      ({} : BundleAdjustmentOptimizer).filterTracks [((42 : Nat), (5 : ℚ))] :=
  (bundle_adjustment_output_filter {} [((42 : Nat), (5 : ℚ))]).2.1 (42, 5)
    (by simp) (by norm_num)

/-- C3: The View-Graph Estimator aggregates each edge's triplet cycle
errors with the configured robust statistic — the median by default, as in
the configuration file — and keeps exactly the edges that either
participate in zero triplets (passed through unfiltered) or whose
aggregated error is within the threshold; every other edge is removed.
The filter is a total function, so removal is never fatal. -/
theorem view_graph_cycle_consistency_filter
    (self : CycleConsistentRotationViewGraphEstimator)
    (edges : List RelRotEdge) (e : RelRotEdge) (he : e ∈ edges) :
    (e ∈ self.run edges ↔
      edgeTripletErrors edges e = [] ∨
        aggregateErrors self.edge_error_aggregation_criterion
            (edgeTripletErrors edges e) ≤ self.error_threshold) ∧
    (∀ q : ℚ,
      ({ error_threshold := q } :
          CycleConsistentRotationViewGraphEstimator).edge_error_aggregation_criterion =
        EdgeErrorAggregationCriterion.MEDIAN_EDGE_ERROR) := by
  refine ⟨?_, fun q => rfl⟩
  unfold CycleConsistentRotationViewGraphEstimator.run
  rw [List.mem_filter]
  constructor
  · rintro ⟨-, hcond⟩
    simpa [List.isEmpty_iff] using hcond
  · intro h
    refine ⟨he, ?_⟩
    simpa [List.isEmpty_iff] using h

/-- Witness for C3 at a concrete input: a lone edge participates in zero
triplets and passes through the default-criterion filter unconditionally. -/
theorem view_graph_cycle_consistency_filter_witness :
    (((0, 1, (1 : Rot3)) : RelRotEdge) ∈
      ({ error_threshold := 0 } :
        CycleConsistentRotationViewGraphEstimator).run [(0, 1, (1 : Rot3))] ↔
      edgeTripletErrors [(0, 1, (1 : Rot3))] (0, 1, (1 : Rot3)) = [] ∨
        aggregateErrors
            ({ error_threshold := 0 } :
              CycleConsistentRotationViewGraphEstimator).edge_error_aggregation_criterion
            (edgeTripletErrors [(0, 1, (1 : Rot3))] (0, 1, (1 : Rot3))) ≤ 0) ∧
    (∀ q : ℚ,
      ({ error_threshold := q } :
          CycleConsistentRotationViewGraphEstimator).edge_error_aggregation_criterion =
        EdgeErrorAggregationCriterion.MEDIAN_EDGE_ERROR) :=
  view_graph_cycle_consistency_filter { error_threshold := 0 }
    [(0, 1, (1 : Rot3))] (0, 1, (1 : Rot3)) (List.mem_singleton.mpr rfl)

/-- In every admissible execution of the pipeline task graph, every data
dependency of a stage completes strictly before that stage starts. -/
theorem exec_deps_before {trace : List Stage} (hexec : Exec trace) :
    ∀ pre s post, trace = pre ++ s :: post → ∀ d ∈ stageDeps s, d ∈ pre := by
  induction hexec with
  | nil =>
    intro pre s post h
    exact absurd h (by simp)
  | @step done s0 hdone hnotin hdeps ih =>
    intro pre s post h
    rcases List.append_eq_append_iff.mp h.symm with ⟨a, ha1, ha2⟩ | ⟨c, hc1, hc2⟩
    · cases a with
      | nil =>
        rw [List.append_nil] at ha1
        injection ha2 with hsx hrest
        subst hsx
        subst ha1
        exact hdeps
      | cons x tl =>
        injection ha2 with hsx hrest
        subst hsx
        exact ih pre _ tl ha1
    · cases c with
      | nil =>
        rw [List.append_nil] at hc1
        injection hc2 with hsx hrest
        subst hsx
        subst hc1
        exact hdeps
      | cons x tl =>
        injection hc2 with hsx hrest
        exact absurd hrest.symm (by simp)

/-- C5: In every admissible pipeline execution, translation averaging
never begins before rotation averaging has completed, and more generally
no stage starts (hence consumes results) before every one of its
predecessor stages has finished. -/
theorem pipeline_stage_ordering (trace : List Stage) (hexec : Exec trace) :
    (∀ pre s post, trace = pre ++ s :: post → ∀ d ∈ stageDeps s, d ∈ pre) ∧
    (∀ pre post, trace = pre ++ Stage.translationAveraging :: post →
      Stage.rotationAveraging ∈ pre) := by
  refine ⟨exec_deps_before hexec, ?_⟩
  intro pre post h
  exact exec_deps_before hexec pre _ post h Stage.rotationAveraging
    (by simp [stageDeps])

/-- Witness for C5 at a concrete input: the canonical full execution of the
pipeline, in which rotation averaging indeed precedes translation
averaging. -/
theorem pipeline_stage_ordering_witness :
    Stage.rotationAveraging ∈ [Stage.correspondence, Stage.twoViewEstimation,
      Stage.viewGraphEstimation, Stage.rotationAveraging] := by
  have h1 : Exec [Stage.correspondence] :=
    Exec.step Exec.nil (by decide) (by decide)
  have h2 : Exec [Stage.correspondence, Stage.twoViewEstimation] :=
    Exec.step h1 (by decide) (by decide)
  have h3 : Exec [Stage.correspondence, Stage.twoViewEstimation,
      Stage.viewGraphEstimation] :=
    Exec.step h2 (by decide) (by decide)
  have h4 : Exec [Stage.correspondence, Stage.twoViewEstimation,
      Stage.viewGraphEstimation, Stage.rotationAveraging] :=
    Exec.step h3 (by decide) (by decide)
  have h5 : Exec [Stage.correspondence, Stage.twoViewEstimation,
      Stage.viewGraphEstimation, Stage.rotationAveraging,
      Stage.translationAveraging] :=
    Exec.step h4 (by decide) (by decide)
  exact (pipeline_stage_ordering _ h5).2
    [Stage.correspondence, Stage.twoViewEstimation, Stage.viewGraphEstimation,
      Stage.rotationAveraging] [] rfl

/-- C6: For every track, robust triangulation evaluates at most the
configured maximum number of hypotheses, each drawn from camera subsets of
size at least 2; every hypothesis is scored by its reprojection error over
all of the track's observations and the best is kept; the track is marked
invalid (`none`) exactly when no drawn subset triangulates (degenerate
geometry: near-parallel rays or cheirality failure, absorbed in the
abstract triangulator returning `none`) or the best hypothesis's error
exceeds the configured threshold. -/
theorem triangulation_robust_sampling {P : Type}
    (opts : TriangulationOptions) (triangulate : List Obs → Option P)
    (reprojErr : P → Obs → ℚ) (track : List Obs)
    (samples : List (List Obs)) :
    (hypothesisPool opts samples).length ≤ opts.max_num_hypotheses ∧
    (∀ s ∈ hypothesisPool opts samples, 2 ≤ s.length ∧ s ∈ samples) ∧
    (∀ p, triangulateTrack opts triangulate reprojErr track samples = some p →
      p ∈ (hypothesisPool opts samples).filterMap triangulate ∧
      (∀ q ∈ (hypothesisPool opts samples).filterMap triangulate,
        totalReprojError reprojErr track p ≤ totalReprojError reprojErr track q) ∧
      totalReprojError reprojErr track p ≤ opts.reproj_error_threshold) ∧
    (triangulateTrack opts triangulate reprojErr track samples = none ↔
      (hypothesisPool opts samples).filterMap triangulate = [] ∨
      ∃ p, ((hypothesisPool opts samples).filterMap triangulate).argmin
            (totalReprojError reprojErr track) = some p ∧
        opts.reproj_error_threshold < totalReprojError reprojErr track p) := by
  refine ⟨?_, ?_, ?_, ?_⟩
  · unfold hypothesisPool
    exact List.length_take_le _ _
  · intro s hs
    unfold hypothesisPool at hs
    have hs2 := List.mem_filter.mp (List.mem_of_mem_take hs)
    exact ⟨of_decide_eq_true hs2.2, hs2.1⟩
  · intro p hp
    unfold triangulateTrack at hp
    split at hp
    next harg =>
      exact absurd hp (by simp)
    next best harg =>
      split at hp
      next hth =>
        injection hp with hpb
        subst hpb
        exact ⟨List.argmin_mem (Option.mem_def.mpr harg),
          fun q hq => List.le_of_mem_argmin hq (Option.mem_def.mpr harg),
          of_decide_eq_true hth⟩
      next hth =>
        exact absurd hp (by simp)
  · unfold triangulateTrack
    split
    next harg =>
      exact iff_of_true rfl (Or.inl (List.argmin_eq_none.mp harg))
    next best harg =>
      split
      next hth =>
        have hb := of_decide_eq_true hth
        constructor
        · intro hc
          exact absurd hc (by simp)
        · rintro (hnil | ⟨p, hp1, hp2⟩)
          · rw [hnil, List.argmin_nil] at harg
            exact absurd harg (by simp)
          · rw [harg] at hp1
            injection hp1 with hpb
            subst hpb
            exact absurd hp2 (not_lt.mpr hb)
      next hth =>
        have hb : ¬ totalReprojError reprojErr track best ≤
            opts.reproj_error_threshold := fun hc => hth (decide_eq_true hc)
        exact iff_of_true rfl (Or.inr ⟨best, harg, not_le.mp hb⟩)

/-- Witness for C6 at a concrete input: with the default options, one
sample of two observations, a trivial triangulator and zero reprojection
error, the pool respects the hypothesis cap and the sample's size bound. -/
theorem triangulation_robust_sampling_witness :
    (hypothesisPool ({} : TriangulationOptions)
        [[((0 : Nat), (0 : Nat)), (1, 1)]]).length ≤
      ({} : TriangulationOptions).max_num_hypotheses ∧
    (2 ≤ ([((0 : Nat), (0 : Nat)), (1, 1)] : List Obs).length ∧
      ([((0 : Nat), (0 : Nat)), (1, 1)] : List Obs) ∈
        [[((0 : Nat), (0 : Nat)), (1, 1)]]) :=
  ⟨(triangulation_robust_sampling {} (fun _ => some (1 : ℚ)) (fun _ _ => 0)
      [] [[((0 : Nat), (0 : Nat)), (1, 1)]]).1,
   (triangulation_robust_sampling {} (fun _ => some (1 : ℚ)) (fun _ _ => 0)
      [] [[((0 : Nat), (0 : Nat)), (1, 1)]]).2.1
     [((0 : Nat), (0 : Nat)), (1, 1)] (by decide)⟩

/-- The generic cacher logic returns exactly the direct recomputation and
preserves cache consistency (writes are idempotent). -/
theorem cachedCompute_correct {κ ρ : Type} [DecidableEq κ] (f : κ → ρ)
    (cache : Cache κ ρ) (k : κ) (hc : CacheConsistent f cache) :
    (cachedCompute f cache k).1 = f k ∧
      CacheConsistent f (cachedCompute f cache k).2 := by
  unfold cachedCompute
  cases h : cacheLookup cache k with
  | some v =>
    simp only [h]
    exact ⟨hc k v h, hc⟩
  | none =>
    simp only [h]
    refine ⟨trivial, ?_⟩
    intro a w haw
    by_cases hak : k = a
    · subst hak
      unfold cacheLookup at haw
      rw [List.find?_cons_of_pos _ (by simp)] at haw
      simp at haw
      exact haw.symm
    · unfold cacheLookup at haw
      rw [List.find?_cons_of_neg _ (by simpa using hak)] at haw
      exact hc a w haw

/-- C8: The cache-wrapped detector-descriptor and matcher are
observationally equivalent to the objects they wrap: whenever the cache is
consistent (every stored entry equals direct recomputation on its key —
the invariant the content-keyed cache maintains, hit or miss), the
cacher's result equals direct recomputation, and the updated cache is
again consistent. -/
theorem cacher_observational_equivalence
    {Image Features PairInput MatchResult : Type}
    [DecidableEq Image] [DecidableEq PairInput]
    (detect : Image → Features) (dcache : Cache Image Features)
    (matcher : PairInput → MatchResult) (mcache : Cache PairInput MatchResult)
    (image : Image) (pair : PairInput)
    (hd : CacheConsistent detect dcache) (hm : CacheConsistent matcher mcache) :
    ((DetectorDescriptorCacher.detect_and_describe detect dcache image).1 =
      detect image ∧
     CacheConsistent detect
       (DetectorDescriptorCacher.detect_and_describe detect dcache image).2) ∧
    ((MatcherCacher.matchPair matcher mcache pair).1 = matcher pair ∧
     CacheConsistent matcher (MatcherCacher.matchPair matcher mcache pair).2) :=
  ⟨cachedCompute_correct detect dcache image hd,
   cachedCompute_correct matcher mcache pair hm⟩

/-- Witness for C8 at a concrete input: the successor function cached in an
initially empty (vacuously consistent) cache, for one image key and one
pair key. -/
theorem cacher_observational_equivalence_witness :
    ((DetectorDescriptorCacher.detect_and_describe Nat.succ
        ([] : Cache Nat Nat) 0).1 = Nat.succ 0 ∧
     CacheConsistent Nat.succ
       (DetectorDescriptorCacher.detect_and_describe Nat.succ
         ([] : Cache Nat Nat) 0).2) ∧
    ((MatcherCacher.matchPair Nat.succ ([] : Cache Nat Nat) 5).1 =
        Nat.succ 5 ∧
     CacheConsistent Nat.succ
       (MatcherCacher.matchPair Nat.succ ([] : Cache Nat Nat) 5).2) :=
  cacher_observational_equivalence Nat.succ [] Nat.succ [] 0 5
    (fun k v h => absurd h (by simp [cacheLookup]))
    (fun k v h => absurd h (by simp [cacheLookup]))

/-- C9: Ransac.verify, given two keypoint sets, their match indices and two
calibrations, returns exactly the 4-tuple the notebook unpacks: a relative
rotation, a relative translation direction that is a unit vector, the
verified inlier correspondence indices (a subset of the input match
indices), and a scalar inlier ratio in [0, 1] equal to the fraction of
matches verified as inliers of the estimated model. -/
theorem ransac_verify_output_contract {Calib : Type}
    (estimateModel : List (ℚ × ℚ) → List (ℚ × ℚ) → List (Nat × Nat) →
      Calib → Calib → Rot3 × Unit3)
    (isInlier : Rot3 × Unit3 → Nat × Nat → Bool)
    (keypoints_i1 keypoints_i2 : List (ℚ × ℚ))
    (match_indices : List (Nat × Nat)) (K1 K2 : Calib) :
    (∀ c ∈ (Ransac.verify estimateModel isInlier keypoints_i1 keypoints_i2
        match_indices K1 K2).2.2.1, c ∈ match_indices) ∧
    ((Ransac.verify estimateModel isInlier keypoints_i1 keypoints_i2
        match_indices K1 K2).2.1.val 0 ^ 2 +
      (Ransac.verify estimateModel isInlier keypoints_i1 keypoints_i2
        match_indices K1 K2).2.1.val 1 ^ 2 +
      (Ransac.verify estimateModel isInlier keypoints_i1 keypoints_i2
        match_indices K1 K2).2.1.val 2 ^ 2 = 1) ∧
    (0 ≤ (Ransac.verify estimateModel isInlier keypoints_i1 keypoints_i2
        match_indices K1 K2).2.2.2 ∧
      (Ransac.verify estimateModel isInlier keypoints_i1 keypoints_i2
        match_indices K1 K2).2.2.2 ≤ 1) ∧
    (match_indices ≠ [] →
      (Ransac.verify estimateModel isInlier keypoints_i1 keypoints_i2
          match_indices K1 K2).2.2.2 =
        ((Ransac.verify estimateModel isInlier keypoints_i1 keypoints_i2
            match_indices K1 K2).2.2.1.length : ℚ) /
          (match_indices.length : ℚ)) := by
  refine ⟨?_, ?_, ?_, ?_⟩
  · intro c hc
    exact List.mem_of_mem_filter hc
  · exact (Ransac.verify estimateModel isInlier keypoints_i1 keypoints_i2
      match_indices K1 K2).2.1.prop
  · by_cases hlen : match_indices.length = 0
    · have hz : (Ransac.verify estimateModel isInlier keypoints_i1
          keypoints_i2 match_indices K1 K2).2.2.2 = 0 := by
        unfold Ransac.verify
        simp [hlen]
      rw [hz]
      norm_num
    · have heq : (Ransac.verify estimateModel isInlier keypoints_i1
          keypoints_i2 match_indices K1 K2).2.2.2 =
          ((match_indices.filter (isInlier (estimateModel keypoints_i1
              keypoints_i2 match_indices K1 K2))).length : ℚ) /
            (match_indices.length : ℚ) := by
        unfold Ransac.verify
        simp [hlen]
      have hpos : 0 < (match_indices.length : ℚ) := by
        exact_mod_cast Nat.pos_of_ne_zero hlen
      rw [heq]
      constructor
      · positivity
      · rw [div_le_one hpos]
        exact_mod_cast List.length_filter_le _ _
  · intro hne
    have hlen : match_indices.length ≠ 0 := by
      simpa [List.length_eq_zero] using hne
    unfold Ransac.verify
    simp [hlen]

/-- Witness for C9 at a concrete input: a constant estimated model (the
identity rotation with the x-axis direction), an everything-is-an-inlier
test and one input match, giving inlier ratio 1. -/
theorem ransac_verify_output_contract_witness :
    (0 ≤ (Ransac.verify (fun _ _ _ _ _ => ((1 : Rot3), unitX))
        (fun _ _ => true) [] [] [((0 : Nat), (0 : Nat))] () ()).2.2.2 ∧
      (Ransac.verify (fun _ _ _ _ _ => ((1 : Rot3), unitX))
        (fun _ _ => true) [] [] [((0 : Nat), (0 : Nat))] () ()).2.2.2 ≤ 1) ∧
    (Ransac.verify (fun _ _ _ _ _ => ((1 : Rot3), unitX))
        (fun _ _ => true) [] [] [((0 : Nat), (0 : Nat))] () ()).2.2.2 =
      ((Ransac.verify (fun _ _ _ _ _ => ((1 : Rot3), unitX))
          (fun _ _ => true) [] [] [((0 : Nat), (0 : Nat))] () ()).2.2.1.length : ℚ) /
        (([((0 : Nat), (0 : Nat))]).length : ℚ) :=
  ⟨(ransac_verify_output_contract (fun _ _ _ _ _ => ((1 : Rot3), unitX))
      (fun _ _ => true) [] [] [((0 : Nat), (0 : Nat))] () ()).2.2.1,
   (ransac_verify_output_contract (fun _ _ _ _ _ => ((1 : Rot3), unitX))
      (fun _ _ => true) [] [] [((0 : Nat), (0 : Nat))] () ()).2.2.2
     (List.cons_ne_nil _ _)⟩

/-- C10: ShonanRotationAveraging.run, called with total camera count
numImages and relative-rotation measurements, returns a sequence of length
exactly numImages, indexable by camera index, whose entry is the no-result
marker `none` (a held position, not an omitted one) at every camera index
that no input edge touches — for any solver. -/
theorem shonan_run_length_and_none_for_isolated
    (solve : List RelRotEdge → Nat → Rot3)
    (numImages : Nat) (edges : List RelRotEdge) :
    (ShonanRotationAveraging.run solve numImages edges).length = numImages ∧
    ∀ i : Nat, i < numImages →
      ShonanRotationAveraging.touched edges i = false →
      (ShonanRotationAveraging.run solve numImages edges)[i]? = some none := by
  constructor
  · simp [ShonanRotationAveraging.run]
  · intro i hi ht
    unfold ShonanRotationAveraging.run
    rw [List.getElem?_map, List.getElem?_range hi]
    simp [ht]

/-- Witness for C10 at a concrete input: three cameras, one edge between
cameras 0 and 1; camera 2 is untouched and receives the `none` entry in a
length-3 output. -/
theorem shonan_run_length_and_none_for_isolated_witness :
    (ShonanRotationAveraging.run (fun _ _ => 1) 3 [(0, 1, (1 : Rot3))]).length
        = 3 ∧
    (ShonanRotationAveraging.run (fun _ _ => 1) 3 [(0, 1, (1 : Rot3))])[2]? =
      some none :=
  ⟨(shonan_run_length_and_none_for_isolated (fun _ _ => 1) 3 [(0, 1, 1)]).1,
   (shonan_run_length_and_none_for_isolated (fun _ _ => 1) 3 [(0, 1, 1)]).2 2
     (by decide) (by rfl)⟩

end Gtsfm
